import Mathlib

/-!
# agora-token-server: request validation and credential dispatch

A shallow embedding of `main.go`.  Go strings are Lean strings, Go `error`
values are kept as their `Error()` text (`none` is `nil`), machine integers
are naturals reduced modulo their width, and the gin context is an explicit
record threaded through the handlers.  The signing library and
`strconv.Quote` are collaborators passed in as functions.
-/

namespace AgoraTokenServer

/-! ## Machine integers -/

/-- Conversion `uint32(x)` of an unsigned 64-bit value. -/
def uint32OfUint64 (x : Nat) : Nat := x % 2 ^ 32

/-- Conversion `uint32(x)` of a signed 64-bit value (two's complement truncation). -/
def uint32OfInt64 (x : Int) : Nat := (x % 2 ^ 32).toNat

/-- Addition of two `uint32` values. -/
def addUint32 (a b : Nat) : Nat := (a + b) % 2 ^ 32

/-! ## `strconv.ParseUint(s, 10, 64)` -/

/-- The two sentinel errors a `*strconv.NumError` can wrap. -/
inductive NumErrKind
  | invalid
  | range
  deriving DecidableEq, Repr

/-- The constant `maxUint64`. -/
def maxUint64 : Nat := 2 ^ 64 - 1

/-- The cutoff for base 10: `maxUint64/10 + 1`. -/
def cutoff : Nat := maxUint64 / 10 + 1

/-- The bound `maxVal := uint64(1)<<uint(bitSize) - 1` for `bitSize = 64`. -/
def maxVal : Nat := (2 ^ 64 - 1) % 2 ^ 64

/-- The helper `lower(c)`, that is `c | ('x' - 'X')`. -/
def lower (c : Nat) : Nat := c ||| 0x20

/-- The digit switch of the loop body: `some d` for the two digit cases,
`none` for the default case.  The underscore case needs `base == 0` and is
never taken for base 10. -/
def digitOf (c : Char) : Option Nat :=
  if 48 ≤ c.toNat ∧ c.toNat ≤ 57 then some (c.toNat - 48)
  else if 97 ≤ lower c.toNat ∧ lower c.toNat ≤ 122 then some (lower c.toNat - 97 + 10)
  else none

/-- The loop `for _, c := range []byte(s)` of `ParseUint` with base 10 and
bit size 64, started from the accumulator `n`.  The result is the returned
`(uint64, error)` pair.  The source walks bytes; every byte of a non-ASCII
character is at least `0x80` and lands in the same rejecting case as the
character does here. -/
def parseUintLoop : List Char → Nat → Nat × Option NumErrKind
  | [], n => (n, none)
  | c :: cs, n =>
    match digitOf c with
    | none => (0, some NumErrKind.invalid)
    | some d =>
      if d ≥ 10 then (0, some NumErrKind.invalid)
      else if n ≥ cutoff then (maxVal, some NumErrKind.range)
      else
        let n10 := (n * 10) % 2 ^ 64
        let n1 := (n10 + d) % 2 ^ 64
        if n1 < n10 ∨ n1 > maxVal then (maxVal, some NumErrKind.range)
        else parseUintLoop cs n1

/-- The call `strconv.ParseUint(s, 10, 64)`. -/
def ParseUint (s : String) : Nat × Option NumErrKind :=
  if s = "" then (0, some NumErrKind.invalid) else parseUintLoop s.data 0

/-- The text of the sentinel errors `ErrSyntax` and `ErrRange`. -/
def NumErrKind.text : NumErrKind → String
  | NumErrKind.invalid => "invalid syntax"
  | NumErrKind.range => "value out of range"

/-- The method `(*NumError).Error()` for an error raised by `ParseUint` on `s`;
`quote` is `strconv.Quote`. -/
def numErrorText (quote : String → String) (s : String) (k : NumErrKind) : String :=
  "strconv.ParseUint: parsing " ++ quote s ++ ": " ++ k.text

/-! ## Decimal numerals, stated independently of the parser -/

/-- An ASCII decimal digit. -/
def isDigit (c : Char) : Bool := decide (48 ≤ c.toNat) && decide (c.toNat ≤ 57)

/-- The positional value of a digit sequence continuing from `n`. -/
def decimalFrom (n : Nat) (cs : List Char) : Nat :=
  cs.foldl (fun a c => a * 10 + (c.toNat - 48)) n

/-- The string `s` is a base-10 representation of the unsigned 64-bit integer `n`:
a non-empty run of ASCII digits whose value is `n`, with `n ≤ 2^64 - 1`. -/
def IsDecimalU64 (s : String) (n : Nat) : Prop :=
  s.data ≠ [] ∧ (∀ c ∈ s.data, isDigit c = true) ∧ decimalFrom 0 s.data = n ∧ n < 2 ^ 64

/-- The string `t` occurs inside the string `s`. -/
def Contains (s t : String) : Prop := t.data <:+: s.data

/-! ## Request parameters -/

/-- The request half of a `gin.Context`: matched path parameters and the
query string, both in order of appearance. -/
structure Request where
  params : List (String × String)
  query : List (String × String)
  deriving Repr

/-- The accessor `c.Param(key)`: the first matching path parameter, else the empty string. -/
def Param (c : Request) (key : String) : String :=
  (c.params.lookup key).getD ""

/-- The accessor `c.DefaultQuery(key, defaultValue)`: the first value of the
key if the key is present, else the default. -/
def DefaultQuery (c : Request) (key defaultValue : String) : String :=
  (c.query.lookup key).getD defaultValue

/-- The type `rtctokenbuilder.Role`, restricted to the two values the server uses. -/
inductive Role
  | RolePublisher
  | RoleSubscriber
  deriving DecidableEq, Repr

/-- The values returned by `parseRTCParams`. -/
structure RTCParams where
  channelName : String
  tokenType : String
  uidString : String
  role : Role
  expireTimestamp : Nat
  err : Option String
  deriving DecidableEq, Repr

/-- The values returned by `parseRTMParams`. -/
structure RTMParams where
  uidString : String
  expireTimestamp : Nat
  err : Option String
  deriving DecidableEq, Repr

/-- The error built by
`fmt.Errorf("failed to parse expireTime: %s, causing error: %s", expireTime, parseErr)`. -/
def expireTimeError (quote : String → String) (expireTime : String) (k : NumErrKind) : String :=
  "failed to parse expireTime: " ++ expireTime ++ ", causing error: " ++
    numErrorText quote expireTime k

/-- The function `parseRTCParams`; `nowUnix` is `time.Now().UTC().Unix()`. -/
def parseRTCParams (quote : String → String) (c : Request) (nowUnix : Int) : RTCParams :=
  let channelName := Param c "channelName"
  let roleString := Param c "role"
  let tokenType := Param c "tokenType"
  let uidString := Param c "uid"
  let expireTime := DefaultQuery c "expiry" "3600"
  let role := if roleString = "publisher" then Role.RolePublisher else Role.RoleSubscriber
  let parsed := ParseUint expireTime
  let err := parsed.2.map (expireTimeError quote expireTime)
  let expireTimeSeconds := uint32OfUint64 parsed.1
  let currentTimestamp := uint32OfInt64 nowUnix
  let expireTimestamp := addUint32 currentTimestamp expireTimeSeconds
  { channelName := channelName, tokenType := tokenType, uidString := uidString,
    role := role, expireTimestamp := expireTimestamp, err := err }

/-- The function `parseRTMParams`; `nowUnix` is `time.Now().UTC().Unix()`. -/
def parseRTMParams (quote : String → String) (c : Request) (nowUnix : Int) : RTMParams :=
  let uidString := Param c "uid"
  let expireTime := DefaultQuery c "expiry" "3600"
  let parsed := ParseUint expireTime
  let err := parsed.2.map (expireTimeError quote expireTime)
  let expireTimeSeconds := uint32OfUint64 parsed.1
  let currentTimestamp := uint32OfInt64 nowUnix
  let expireTimestamp := addUint32 currentTimestamp expireTimeSeconds
  { uidString := uidString, expireTimestamp := expireTimestamp, err := err }

/-! ## Signing collaborators and observable effects -/

/-- A Go `(string, error)` result pair; the error is kept as its `Error()` text. -/
structure TokenResult where
  token : String
  err : Option String
  deriving DecidableEq, Repr

/-- The constant `rtmtokenbuilder.RoleRtmUser`, the only messaging role the server passes. -/
inductive RtmRole
  | RoleRtmUser
  deriving DecidableEq, Repr

/-- The library functions the server calls but does not define: `strconv.Quote`,
`rtctokenbuilder.BuildTokenWithUID`, `rtctokenbuilder.BuildTokenWithUserAccount`
and `rtmtokenbuilder.BuildToken`, with their arguments in source order. -/
structure Collaborators where
  quote : String → String
  BuildTokenWithUID : String → String → String → Nat → Role → Nat → TokenResult
  BuildTokenWithUserAccount : String → String → String → String → Role → Nat → TokenResult
  BuildToken : String → String → String → RtmRole → Nat → TokenResult

/-- What a run does besides writing the response: each signer invocation with
its arguments, and each line given to `log.Println`. -/
inductive Event
  | calledBuildTokenWithUID (appID appCertificate channelName : String) (uid : Nat)
      (role : Role) (expireTimestamp : Nat)
  | calledBuildTokenWithUserAccount (appID appCertificate channelName uidString : String)
      (role : Role) (expireTimestamp : Nat)
  | calledBuildToken (appID appCertificate uidString : String) (role : RtmRole)
      (expireTimestamp : Nat)
  | logged (line : String)
  deriving DecidableEq, Repr

/-- An event that is an invocation of one of the three signers. -/
def Event.isSignerCall : Event → Bool
  | Event.logged _ => false
  | _ => true

/-- An event that is an invocation of `BuildTokenWithUID`. -/
def Event.isUIDCall : Event → Bool
  | Event.calledBuildTokenWithUID _ _ _ _ _ _ => true
  | _ => false

/-- The package variables `appID` and `appCertificate`. -/
structure Globals where
  appID : String
  appCertificate : String
  deriving DecidableEq, Repr

/-- The error built by
`fmt.Errorf("failed to parse uidString: %s, to uint causing error: %s", uidString, parseErr)`. -/
def uidStringError (quote : String → String) (uidString : String) (k : NumErrKind) : String :=
  "failed to parse uidString: " ++ uidString ++ ", to uint causing error: " ++
    numErrorText quote uidString k

/-- The error built by
`fmt.Errorf("failed to generate RTC token for unknown tokenType: %s", tokenType)`. -/
def unknownTokenTypeError (tokenType : String) : String :=
  "failed to generate RTC token for unknown tokenType: " ++ tokenType

/-- The function `generateRTCToken`: the returned `(rtcToken, err)` pair together
with the events of the call, in order. -/
def generateRTCToken (lib : Collaborators) (g : Globals) (channelName uidString tokenType : String)
    (role : Role) (expireTimestamp : Nat) : TokenResult × List Event :=
  if tokenType = "userAccount" then
    (lib.BuildTokenWithUserAccount g.appID g.appCertificate channelName uidString role
        expireTimestamp,
      [Event.calledBuildTokenWithUserAccount g.appID g.appCertificate channelName uidString role
        expireTimestamp])
  else if tokenType = "uid" then
    let parsed := ParseUint uidString
    match parsed.2 with
    | some k => ({ token := "", err := some (uidStringError lib.quote uidString k) }, [])
    | none =>
      let uid := uint32OfUint64 parsed.1
      (lib.BuildTokenWithUID g.appID g.appCertificate channelName uid role expireTimestamp,
        [Event.calledBuildTokenWithUID g.appID g.appCertificate channelName uid role
          expireTimestamp])
  else
    let err := unknownTokenTypeError tokenType
    ({ token := "", err := some err }, [Event.logged err])

/-! ## The gin context -/

/-- A value stored in a `gin.H` map. -/
inductive JSONValue
  | str (s : String)
  | num (n : Nat)
  deriving DecidableEq, Repr

/-- The map type `gin.H`, as the key and value pairs of the literal. -/
abbrev H := List (String × JSONValue)

/-- The state of a `gin.Context` during one request, with the events observed so far.
`status` is the code written with the response header, `none` while nothing is written;
`bodies` are the JSON bodies written, in order. -/
structure Context where
  request : Request
  Errors : List String
  status : Option Nat
  bodies : List H
  aborted : Bool
  events : List Event
  deriving Repr

/-- A fresh context for a request. -/
def Context.new (r : Request) : Context :=
  { request := r, Errors := [], status := none, bodies := [], aborted := false, events := [] }

/-- How a handler run ends: it returns, or it panics with a message. -/
inductive Outcome
  | returned (c : Context)
  | panicked (msg : String) (c : Context)
  deriving Repr

/-- The method `c.Error(err)`: appends the error to `c.Errors`; gin panics with
"err is nil" when the argument is nil. -/
def Context.Error (c : Context) (err : Option String) : Except String Context :=
  match err with
  | none => Except.error "err is nil"
  | some e => Except.ok { c with Errors := c.Errors ++ [e] }

/-- The helper `bodyAllowedForStatus` of gin's render step. -/
def bodyAllowedForStatus (code : Nat) : Bool :=
  if 100 ≤ code ∧ code ≤ 199 then false
  else if code = 204 then false
  else if code = 304 then false
  else true

/-- The method `c.JSON(code, obj)`: the status is set unless the header is already
written, then the body is written (which writes the header). -/
def Context.JSON (c : Context) (code : Nat) (obj : H) : Context :=
  if bodyAllowedForStatus code then
    { c with status := some (c.status.getD code), bodies := c.bodies ++ [obj] }
  else
    { c with status := some (c.status.getD code) }

/-- The method `c.AbortWithStatusJSON(code, obj)`: `c.Abort()` followed by `c.JSON`. -/
def Context.AbortWithStatusJSON (c : Context) (code : Nat) (obj : H) : Context :=
  Context.JSON { c with aborted := true } code obj

/-- The method `c.AbortWithStatus(code)`. -/
def Context.AbortWithStatus (c : Context) (code : Nat) : Context :=
  { c with status := some (c.status.getD code), aborted := true }

/-- The call `log.Println(v)` with the printed text. -/
def Context.Println (c : Context) (line : String) : Context :=
  { c with events := c.events ++ [Event.logged line] }

/-- Appends the events of a callee to the run. -/
def Context.observe (c : Context) (evs : List Event) : Context :=
  { c with events := c.events ++ evs }

/-- The text `log.Println` prints for an `error` value. -/
def errorText : Option String → String
  | none => "<nil>"
  | some e => e

/-! ## Handlers -/

/-- The handler `getRTCToken`. -/
def getRTCToken (lib : Collaborators) (g : Globals) (nowUnix : Int) (c : Context) : Outcome :=
  let p := parseRTCParams lib.quote c.request nowUnix
  match p.err with
  | some e =>
    match c.Error p.err with
    | Except.error msg => Outcome.panicked msg c
    | Except.ok c1 =>
      Outcome.returned (c1.AbortWithStatusJSON 400
        [("status", JSONValue.num 400),
         ("message", JSONValue.str ("Error generating RTC token: " ++ e))])
  | none =>
    let r := generateRTCToken lib g p.channelName p.uidString p.tokenType p.role p.expireTimestamp
    let c1 := c.observe r.2
    match r.1.err with
    | some tokenErr =>
      let c2 := c1.Println tokenErr
      match c2.Error p.err with
      | Except.error msg => Outcome.panicked msg c2
      | Except.ok c3 =>
        Outcome.returned (c3.AbortWithStatusJSON 400
          [("status", JSONValue.num 400),
           ("error", JSONValue.str ("Error generating RTC token: " ++ tokenErr))])
    | none => Outcome.returned (c1.JSON 200 [("rtcToken", JSONValue.str r.1.token)])

/-- The handler `getRTMToken`. -/
def getRTMToken (lib : Collaborators) (g : Globals) (nowUnix : Int) (c : Context) : Outcome :=
  let p := parseRTMParams lib.quote c.request nowUnix
  match p.err with
  | some _ =>
    match c.Error p.err with
    | Except.error msg => Outcome.panicked msg c
    | Except.ok c1 =>
      Outcome.returned (c1.AbortWithStatusJSON 400
        [("status", JSONValue.num 400),
         ("message", JSONValue.str "Error generating RTM token")])
  | none =>
    let r := lib.BuildToken g.appID g.appCertificate p.uidString RtmRole.RoleRtmUser
      p.expireTimestamp
    let c1 := c.observe [Event.calledBuildToken g.appID g.appCertificate p.uidString
      RtmRole.RoleRtmUser p.expireTimestamp]
    match r.err with
    | some tokenErr =>
      let c2 := c1.Println (errorText p.err)
      match c2.Error p.err with
      | Except.error msg => Outcome.panicked msg c2
      | Except.ok c3 =>
        Outcome.returned (c3.AbortWithStatusJSON 400
          [("status", JSONValue.num 400),
           ("error", JSONValue.str ("Error generating RTM token: " ++ tokenErr))])
    | none => Outcome.returned (c1.JSON 200 [("rtmToken", JSONValue.str r.token)])

/-- The part of `getBothTokens` after the parameter check: both signing steps
and the three-way response. -/
def getBothTokensRest (lib : Collaborators) (g : Globals) (p : RTCParams) (c : Context) :
    Outcome :=
  let r := generateRTCToken lib g p.channelName p.uidString p.tokenType p.role p.expireTimestamp
  let c1 := c.observe r.2
  let m := lib.BuildToken g.appID g.appCertificate p.uidString RtmRole.RoleRtmUser
    p.expireTimestamp
  let c2 := c1.observe [Event.calledBuildToken g.appID g.appCertificate p.uidString
    RtmRole.RoleRtmUser p.expireTimestamp]
  match r.1.err with
  | some rtcTokenErr =>
    match c2.Error r.1.err with
    | Except.error msg => Outcome.panicked msg c2
    | Except.ok c3 =>
      Outcome.returned (c3.AbortWithStatusJSON 400
        [("status", JSONValue.num 400),
         ("message", JSONValue.str ("Error generating RTC token: " ++ rtcTokenErr))])
  | none =>
    match m.err with
    | some rtmTokenErr =>
      match c2.Error m.err with
      | Except.error msg => Outcome.panicked msg c2
      | Except.ok c3 =>
        Outcome.returned (c3.AbortWithStatusJSON 400
          [("status", JSONValue.num 400),
           ("message", JSONValue.str ("Error generating RTM token: " ++ rtmTokenErr))])
    | none =>
      Outcome.returned (c2.JSON 200
        [("rtcToken", JSONValue.str r.1.token), ("rtmToken", JSONValue.str m.token)])

/-- The handler `getBothTokens`.  The parameter check writes its failure and
falls through: the block has no `return`. -/
def getBothTokens (lib : Collaborators) (g : Globals) (nowUnix : Int) (c : Context) : Outcome :=
  let p := parseRTCParams lib.quote c.request nowUnix
  match p.err with
  | some e =>
    match c.Error p.err with
    | Except.error msg => Outcome.panicked msg c
    | Except.ok c1 =>
      getBothTokensRest lib g p (c1.AbortWithStatusJSON 400
        [("status", JSONValue.num 400),
         ("message", JSONValue.str ("Error generating tokens: " ++ e))])
  | none => getBothTokensRest lib g p c

/-! ## The engine: `gin.Default()` -/

/-- What the client receives: the status code and the bodies written, in order. -/
structure Response where
  status : Nat
  bodies : List H
  deriving DecidableEq, Repr

/-- The recovery middleware installed by `gin.Default()`: a panic in the handler
is caught and answered with `c.AbortWithStatus(500)`. -/
def recovery (o : Outcome) : Context :=
  match o with
  | Outcome.returned c => c
  | Outcome.panicked _ c => c.AbortWithStatus 500

/-- The response of a route: the handler runs on a fresh context under the
recovery middleware; a handler that writes nothing leaves the default status 200. -/
def respond (handler : Context → Outcome) (r : Request) : Response :=
  let c := recovery (handler (Context.new r))
  { status := c.status.getD 200, bodies := c.bodies }

/-- The events of a route's run on a fresh context. -/
def eventsOf (handler : Context → Outcome) (r : Request) : List Event :=
  (recovery (handler (Context.new r))).events

/-- The signer invocations among the events of a run. -/
def signerCalls (evs : List Event) : List Event := evs.filter Event.isSignerCall

/-- The string values of a body stored under the keys `rtcToken` and `rtmToken`. -/
def tokenKeys (body : H) : List String :=
  (body.filter (fun kv => kv.1 = "rtcToken" ∨ kv.1 = "rtmToken")).map Prod.fst

/-! ## Startup -/

/-- The process environment, read by first match. -/
abbrev Env := List (String × String)

/-- The call `os.LookupEnv(key)`: the value and whether the variable is set. -/
def LookupEnv (env : Env) (key : String) : String × Bool :=
  match env.lookup key with
  | some v => (v, true)
  | none => ("", false)

/-- The call `godotenv.Load()`: `dotenv` is the parsed `.env` file, `none` when it
cannot be read; each of its variables is set unless the environment already has it. -/
def godotenvLoad (dotenv : Option Env) (env : Env) : Option Env :=
  dotenv.map (fun kvs => env ++ kvs.filter (fun kv => (env.lookup kv.1).isNone))

/-- How `main` proceeds: `log.Fatal` ends the process, or the routes are
registered and `api.Run` is reached with the package variables set. -/
inductive Startup
  | fatal (msg : String)
  | serving (g : Globals) (routes : List String)
  deriving DecidableEq, Repr

/-- The function `main`. -/
def main (dotenv : Option Env) (env : Env) : Startup :=
  match godotenvLoad dotenv env with
  | none => Startup.fatal "Error loading .env file"
  | some env1 =>
    let appIDLookup := LookupEnv env1 "APP_ID"
    let appCertLookup := LookupEnv env1 "APP_CERTIFICATE"
    if !appIDLookup.2 || !appCertLookup.2 then
      Startup.fatal "FATAL ERROR: ENV not properly configured, check APP_ID and APP_CERTIFICATE"
    else
      Startup.serving { appID := appIDLookup.1, appCertificate := appCertLookup.1 }
        ["/ping", "rtc/:channelName/:role/:tokenType/:uid/", "rtm/:uid/",
         "rte/:channelName/:role/:tokenType/:uid/"]

/-! ## Sample inputs -/

/-- A stand-in for `strconv.Quote`; it agrees with it on printable ASCII text
without quote or backslash characters. -/
def sampleQuote (s : String) : String :=
  String.singleton (Char.ofNat 34) ++ s ++ String.singleton (Char.ofNat 34)

/-- A signing library in which every signer succeeds with a fixed token. -/
def sampleLib : Collaborators :=
  { quote := sampleQuote,
    BuildTokenWithUID := fun _ _ _ _ _ _ => { token := "006rtcByUid", err := none },
    BuildTokenWithUserAccount := fun _ _ _ _ _ _ => { token := "006rtcByAccount", err := none },
    BuildToken := fun _ _ _ _ _ => { token := "006rtm", err := none } }

/-- A signing library whose channel signers fail while the messaging signer succeeds. -/
def rtcFailingLib : Collaborators :=
  { quote := sampleQuote,
    BuildTokenWithUID := fun _ _ _ _ _ _ => { token := "", err := some "channel signing failed" },
    BuildTokenWithUserAccount := fun _ _ _ _ _ _ =>
      { token := "", err := some "channel signing failed" },
    BuildToken := fun _ _ _ _ _ => { token := "006rtm", err := none } }

/-- Sample package variables. -/
def sampleGlobals : Globals := { appID := "app", appCertificate := "cert" }

/-- The request `GET /rtc/testchannel/publisher/badtype/12345/` (also under `/rte/`). -/
def badTypeRequest : Request :=
  { params := [("channelName", "testchannel"), ("role", "publisher"), ("tokenType", "badtype"),
      ("uid", "12345")],
    query := [] }

/-- The request `GET /rte/testchannel/publisher/uid/12345/?expiry=abc` (also under `/rtc/`). -/
def badExpiryRequest : Request :=
  { params := [("channelName", "testchannel"), ("role", "publisher"), ("tokenType", "uid"),
      ("uid", "12345")],
    query := [("expiry", "abc")] }

/-- The request `GET /rtc/testchannel/publisher/uid/12345/?expiry=600` (also under `/rte/`). -/
def uidRequest : Request :=
  { params := [("channelName", "testchannel"), ("role", "publisher"), ("tokenType", "uid"),
      ("uid", "12345")],
    query := [("expiry", "600")] }

/-- The request `GET /rtm/user42/?expiry=abc`. -/
def rtmBadExpiryRequest : Request :=
  { params := [("uid", "user42")], query := [("expiry", "abc")] }

/-- The request `GET /rtm/user42/`. -/
def rtmRequest : Request :=
  { params := [("uid", "user42")], query := [] }

/-- An environment in which `APP_ID` is set to the empty string. -/
def emptyAppIDEnv : Env := [("APP_ID", ""), ("APP_CERTIFICATE", "cert")]

/-! ## The parser against decimal numerals -/

theorem digitOf_of_isDigit {c : Char} (h : isDigit c = true) :
    digitOf c = some (c.toNat - 48) ∧ c.toNat - 48 < 10 := by
  simp only [isDigit, Bool.and_eq_true, decide_eq_true_eq] at h
  refine ⟨?_, by omega⟩
  simp [digitOf, h.1, h.2]

theorem digitOf_of_not_isDigit {c : Char} (h : isDigit c = false) :
    ∀ d, digitOf c = some d → 10 ≤ d := by
  intro d hd
  have hc : ¬ (48 ≤ c.toNat ∧ c.toNat ≤ 57) := by
    intro hc
    simp [isDigit, hc.1, hc.2] at h
  unfold digitOf at hd
  rw [if_neg hc] at hd
  split at hd
  · cases hd
    omega
  · cases hd

theorem le_decimalFrom (cs : List Char) (n : Nat) : n ≤ decimalFrom n cs := by
  induction cs generalizing n with
  | nil => simp [decimalFrom]
  | cons c cs ih =>
    have h := ih (n * 10 + (c.toNat - 48))
    simp only [decimalFrom, List.foldl_cons] at h ⊢
    omega

theorem decimalFrom_cons (c : Char) (cs : List Char) (n : Nat) :
    decimalFrom n (c :: cs) = decimalFrom (n * 10 + (c.toNat - 48)) cs := rfl

theorem parseUintLoop_spec (cs : List Char) (n : Nat) (hn : n < 2 ^ 64) :
    ((∀ c ∈ cs, isDigit c = true) ∧ decimalFrom n cs < 2 ^ 64 →
        parseUintLoop cs n = (decimalFrom n cs, none)) ∧
    (¬ ((∀ c ∈ cs, isDigit c = true) ∧ decimalFrom n cs < 2 ^ 64) →
        (parseUintLoop cs n).2 ≠ none) := by
  induction cs generalizing n with
  | nil =>
    constructor
    · intro _
      simp [parseUintLoop, decimalFrom]
    · intro h
      exact absurd ⟨by simp, by simpa [decimalFrom] using hn⟩ h
  | cons c cs ih =>
    cases hc : isDigit c with
    | false =>
      constructor
      · intro h
        have := h.1 c (List.mem_cons_self _ _)
        rw [hc] at this
        cases this
      · intro _
        have hd := digitOf_of_not_isDigit hc
        unfold parseUintLoop
        cases hdc : digitOf c with
        | none => simp
        | some d =>
          have := hd d hdc
          simp [this]
    | true =>
      obtain ⟨hd, hlt⟩ := digitOf_of_isDigit hc
      have hmono := le_decimalFrom cs (n * 10 + (c.toNat - 48))
      rw [decimalFrom_cons]
      by_cases hcut : n ≥ cutoff
      · have hcut2 : cutoff = 1844674407370955162 := by decide
        constructor
        · intro h
          omega
        · intro _
          unfold parseUintLoop
          simp [hd, hcut, Nat.not_le.mpr hlt]
      · have hcut2 : cutoff = 1844674407370955162 := by decide
        have hmv : maxVal = 18446744073709551615 := by decide
        have h10 : (n * 10) % 2 ^ 64 = n * 10 := Nat.mod_eq_of_lt (by omega)
        by_cases hov : n * 10 + (c.toNat - 48) < 2 ^ 64
        · have h1 : (n * 10 + (c.toNat - 48)) % 2 ^ 64 = n * 10 + (c.toNat - 48) :=
            Nat.mod_eq_of_lt hov
          have hstep : parseUintLoop (c :: cs) n =
              parseUintLoop cs (n * 10 + (c.toNat - 48)) := by
            rw [parseUintLoop]
            simp only [hd, h10, h1]
            rw [if_neg (by omega), if_neg hcut, if_neg (by omega)]
          rw [hstep]
          obtain ⟨ih1, ih2⟩ := ih (n * 10 + (c.toNat - 48)) hov
          constructor
          · intro h
            exact ih1 ⟨fun x hx => h.1 x (List.mem_cons_of_mem _ hx), h.2⟩
          · intro h
            apply ih2
            intro h2
            apply h
            refine ⟨?_, h2.2⟩
            intro x hx
            rcases List.mem_cons.mp hx with rfl | hx
            · exact hc
            · exact h2.1 x hx
        · constructor
          · intro h
            omega
          · intro _
            have hwrap : (n * 10 + (c.toNat - 48)) % 2 ^ 64 < n * 10 := by omega
            rw [parseUintLoop]
            simp only [hd, h10]
            rw [if_neg (by omega), if_neg hcut, if_pos (Or.inl hwrap)]
            simp

theorem data_ne_nil_of_ne_empty {s : String} (h : s ≠ "") : s.data ≠ [] := by
  intro hd
  apply h
  exact String.ext (by simpa using hd)

theorem ParseUint_of_decimal {s : String} {n : Nat} (h : IsDecimalU64 s n) :
    ParseUint s = (n, none) := by
  obtain ⟨hne, hdig, hval, hlt⟩ := h
  have hs : s ≠ "" := by
    intro hs
    apply hne
    rw [hs]
  unfold ParseUint
  rw [if_neg hs]
  have := (parseUintLoop_spec s.data 0 (by norm_num)).1 ⟨hdig, by rw [hval]; exact hlt⟩
  rw [this, hval]

theorem ParseUint_err_of_not_decimal {s : String} (h : ¬ ∃ n, IsDecimalU64 s n) :
    (ParseUint s).2 ≠ none := by
  unfold ParseUint
  by_cases hs : s = ""
  · rw [if_pos hs]
    simp
  · rw [if_neg hs]
    apply (parseUintLoop_spec s.data 0 (by norm_num)).2
    intro h2
    exact h ⟨decimalFrom 0 s.data, data_ne_nil_of_ne_empty hs, h2.1, rfl, h2.2⟩

/-! ## Parameter validation -/

theorem parse_err_eq (quote : String → String) (c : Request) (nowUnix : Int) :
    (parseRTCParams quote c nowUnix).err =
        (ParseUint (DefaultQuery c "expiry" "3600")).2.map
          (expireTimeError quote (DefaultQuery c "expiry" "3600")) ∧
    (parseRTMParams quote c nowUnix).err =
        (ParseUint (DefaultQuery c "expiry" "3600")).2.map
          (expireTimeError quote (DefaultQuery c "expiry" "3600")) :=
  ⟨rfl, rfl⟩

theorem isDecimalU64_3600 : IsDecimalU64 "3600" 3600 :=
  ⟨by decide, by decide, by decide, by norm_num⟩

/-- C4: for every clock reading and every `expiry` query value that is a base-10
unsigned 64-bit integer `n`, or is absent in which case `n = 3600`, both
`parseRTCParams` and `parseRTMParams` return a nil error and
`expireTimestamp = (now + n) mod 2^32`, where `now` is the clock as `uint32`. -/
theorem C4_expireTimestamp_wraps (quote : String → String) (c : Request) (nowUnix : Int)
    (n : Nat)
    (h : (∃ s, c.query.lookup "expiry" = some s ∧ IsDecimalU64 s n) ∨
         (c.query.lookup "expiry" = none ∧ n = 3600)) :
    (parseRTCParams quote c nowUnix).err = none ∧
    (parseRTCParams quote c nowUnix).expireTimestamp = (uint32OfInt64 nowUnix + n) % 2 ^ 32 ∧
    (parseRTMParams quote c nowUnix).err = none ∧
    (parseRTMParams quote c nowUnix).expireTimestamp = (uint32OfInt64 nowUnix + n) % 2 ^ 32 := by
  have hp : ParseUint (DefaultQuery c "expiry" "3600") = (n, none) := by
    rcases h with ⟨s, hs, hd⟩ | ⟨hs, hn⟩
    · simp only [DefaultQuery, hs, Option.getD_some]
      exact ParseUint_of_decimal hd
    · simp only [DefaultQuery, hs, Option.getD_none]
      rw [hn]
      exact ParseUint_of_decimal isDecimalU64_3600
  simp only [parseRTCParams, parseRTMParams, hp, Option.map_none', addUint32, uint32OfUint64,
    Nat.add_mod_mod, and_self]

/-- C7: `parseRTCParams` resolves the role to Publisher exactly when the role path
value is the string "publisher", every other value resolves to Subscriber, and the
returned error is the same for all requests with the same query, whatever the role. -/
theorem C7_role_resolution (quote : String → String) (c : Request) (nowUnix : Int) :
    ((parseRTCParams quote c nowUnix).role = Role.RolePublisher ↔
        Param c "role" = "publisher") ∧
    (Param c "role" ≠ "publisher" →
        (parseRTCParams quote c nowUnix).role = Role.RoleSubscriber) ∧
    (∀ c2 : Request, c2.query = c.query →
        (parseRTCParams quote c2 nowUnix).err = (parseRTCParams quote c nowUnix).err) := by
  refine ⟨?_, ?_, ?_⟩
  · by_cases hr : Param c "role" = "publisher"
    · simp [parseRTCParams, hr]
    · simp [parseRTCParams, hr]
  · intro hr
    simp [parseRTCParams, hr]
  · intro c2 hq
    simp only [parseRTCParams, DefaultQuery, hq]

/-! ## Dispatch -/

theorem contains_append_right (a t : String) : Contains (a ++ t) t := by
  unfold Contains
  rw [String.data_append]
  exact ⟨a.data, [], by simp⟩

/-- C5: with `tokenType = "uid"`, an identity string that is not a base-10
unsigned 64-bit integer makes `generateRTCToken` return an empty token and a non-nil
error with no signer invoked; an identity string that is one passes the parse step. -/
theorem C5_uid_identity_rejected (lib : Collaborators) (g : Globals)
    (channelName uidString : String) (role : Role) (expireTimestamp : Nat) :
    ((¬ ∃ n, IsDecimalU64 uidString n) →
      (generateRTCToken lib g channelName uidString "uid" role expireTimestamp).1.token = "" ∧
      (generateRTCToken lib g channelName uidString "uid" role expireTimestamp).1.err ≠ none ∧
      (generateRTCToken lib g channelName uidString "uid" role expireTimestamp).2 = []) ∧
    ((∃ n, IsDecimalU64 uidString n) → (ParseUint uidString).2 = none) := by
  constructor
  · intro h
    have he := ParseUint_err_of_not_decimal h
    have hne : ("uid" : String) ≠ "userAccount" := by decide
    unfold generateRTCToken
    rw [if_neg hne, if_pos rfl]
    cases hk : (ParseUint uidString).2 with
    | none => exact absurd hk he
    | some k => simp [hk]
  · rintro ⟨n, hn⟩
    rw [ParseUint_of_decimal hn]

/-- C6: for every `tokenType` other than "uid" and "userAccount", whatever the other
arguments, `generateRTCToken` returns an empty token and a non-nil error whose text
contains the `tokenType` value, and invokes no signer. -/
theorem C6_unknown_tokenType (lib : Collaborators) (g : Globals)
    (channelName uidString tokenType : String) (role : Role) (expireTimestamp : Nat)
    (h1 : tokenType ≠ "uid") (h2 : tokenType ≠ "userAccount") :
    (generateRTCToken lib g channelName uidString tokenType role expireTimestamp).1.token = "" ∧
    (∃ e, (generateRTCToken lib g channelName uidString tokenType role expireTimestamp).1.err
        = some e ∧ Contains e tokenType) ∧
    signerCalls (generateRTCToken lib g channelName uidString tokenType role expireTimestamp).2
      = [] := by
  unfold generateRTCToken
  rw [if_neg h2, if_neg h1]
  refine ⟨rfl, ⟨_, rfl, contains_append_right _ _⟩, ?_⟩
  simp [signerCalls, Event.isSignerCall]

/-- C10: for an identity string that is the base-10 unsigned 64-bit integer `n`,
`generateRTCToken` with `tokenType = "uid"` invokes `BuildTokenWithUID` exactly once,
with `uid = n mod 2^32` and the other arguments unchanged, and returns its result
unchanged; an identity string for `n + 2^32` gives the same call and result. -/
theorem C10_uid_narrowed (lib : Collaborators) (g : Globals) (channelName uidString : String)
    (role : Role) (expireTimestamp n : Nat) (h : IsDecimalU64 uidString n) :
    generateRTCToken lib g channelName uidString "uid" role expireTimestamp =
      (lib.BuildTokenWithUID g.appID g.appCertificate channelName (n % 2 ^ 32) role
          expireTimestamp,
        [Event.calledBuildTokenWithUID g.appID g.appCertificate channelName (n % 2 ^ 32) role
          expireTimestamp]) ∧
    (∀ s2, IsDecimalU64 s2 (n + 2 ^ 32) →
      generateRTCToken lib g channelName s2 "uid" role expireTimestamp =
        generateRTCToken lib g channelName uidString "uid" role expireTimestamp) := by
  have hne : ("uid" : String) ≠ "userAccount" := by decide
  have key : ∀ s k, IsDecimalU64 s k →
      generateRTCToken lib g channelName s "uid" role expireTimestamp =
      (lib.BuildTokenWithUID g.appID g.appCertificate channelName (k % 2 ^ 32) role
          expireTimestamp,
        [Event.calledBuildTokenWithUID g.appID g.appCertificate channelName (k % 2 ^ 32) role
          expireTimestamp]) := by
    intro s k hk
    unfold generateRTCToken
    rw [if_neg hne, if_pos rfl, ParseUint_of_decimal hk]
    rfl
  refine ⟨key _ _ h, ?_⟩
  intro s2 h2
  rw [key _ _ h2, key _ _ h, Nat.add_mod_right]

/-! ## Handlers -/

theorem respond_getBothTokens_valid (lib : Collaborators) (g : Globals) (nowUnix : Int)
    (req : Request) (hv : (parseRTCParams lib.quote req nowUnix).err = none) :
    respond (getBothTokens lib g nowUnix) req =
      { status := (recovery (getBothTokensRest lib g (parseRTCParams lib.quote req nowUnix)
          (Context.new req))).status.getD 200,
        bodies := (recovery (getBothTokensRest lib g (parseRTCParams lib.quote req nowUnix)
          (Context.new req))).bodies } := by
  simp only [respond, getBothTokens, Context.new, hv]

theorem tokenKeys_failure (v w : JSONValue) :
    tokenKeys [("status", v), ("message", w)] = [] := by
  simp [tokenKeys]

theorem tokenKeys_payload (v w : JSONValue) :
    tokenKeys [("rtcToken", v), ("rtmToken", w)] = ["rtcToken", "rtmToken"] := by
  simp [tokenKeys]

theorem tokenKeys_rest (lib : Collaborators) (g : Globals) (p : RTCParams) (c : Context)
    (hc : ∀ body ∈ c.bodies, tokenKeys body = [] ∨ tokenKeys body = ["rtcToken", "rtmToken"]) :
    ∀ body ∈ (recovery (getBothTokensRest lib g p c)).bodies,
      tokenKeys body = [] ∨ tokenKeys body = ["rtcToken", "rtmToken"] := by
  intro body hb
  unfold getBothTokensRest at hb
  cases hr : (generateRTCToken lib g p.channelName p.uidString p.tokenType p.role
      p.expireTimestamp).1.err with
  | some e =>
    simp only [hr, Context.Error, Context.observe, recovery, Context.AbortWithStatusJSON,
      Context.JSON, bodyAllowedForStatus] at hb
    simp at hb
    rcases hb with hb | hb
    · exact hc body hb
    · left
      rw [hb]
      exact tokenKeys_failure _ _
  | none =>
    cases hm : (lib.BuildToken g.appID g.appCertificate p.uidString RtmRole.RoleRtmUser
        p.expireTimestamp).err with
    | some e =>
      simp only [hr, hm, Context.Error, Context.observe, recovery, Context.AbortWithStatusJSON,
        Context.JSON, bodyAllowedForStatus] at hb
      simp at hb
      rcases hb with hb | hb
      · exact hc body hb
      · left
        rw [hb]
        exact tokenKeys_failure _ _
    | none =>
      simp only [hr, hm, Context.observe, recovery, Context.JSON, bodyAllowedForStatus] at hb
      simp at hb
      rcases hb with hb | hb
      · exact hc body hb
      · right
        rw [hb]
        exact tokenKeys_payload _ _

/-- C1: for a combined-credential request whose parameters validate, the response is
the 200 payload with both tokens exactly when `generateRTCToken` and the messaging
signer both succeed; when `generateRTCToken` fails it is the 400 failure carrying the
channel error, whatever the messaging signer returns; when only the messaging signer
fails it is the 400 failure carrying the messaging error.  No body written by
`getBothTokens`, for any request, carries exactly one of the two tokens. -/
theorem C1_both_tokens_or_failure (lib : Collaborators) (g : Globals) (nowUnix : Int)
    (req : Request) :
    ((parseRTCParams lib.quote req nowUnix).err = none →
      (((generateRTCToken lib g (parseRTCParams lib.quote req nowUnix).channelName
            (parseRTCParams lib.quote req nowUnix).uidString
            (parseRTCParams lib.quote req nowUnix).tokenType
            (parseRTCParams lib.quote req nowUnix).role
            (parseRTCParams lib.quote req nowUnix).expireTimestamp).1.err = none ∧
          (lib.BuildToken g.appID g.appCertificate
            (parseRTCParams lib.quote req nowUnix).uidString RtmRole.RoleRtmUser
            (parseRTCParams lib.quote req nowUnix).expireTimestamp).err = none) →
        respond (getBothTokens lib g nowUnix) req =
          { status := 200,
            bodies := [[("rtcToken", JSONValue.str
                (generateRTCToken lib g (parseRTCParams lib.quote req nowUnix).channelName
                  (parseRTCParams lib.quote req nowUnix).uidString
                  (parseRTCParams lib.quote req nowUnix).tokenType
                  (parseRTCParams lib.quote req nowUnix).role
                  (parseRTCParams lib.quote req nowUnix).expireTimestamp).1.token),
              ("rtmToken", JSONValue.str
                (lib.BuildToken g.appID g.appCertificate
                  (parseRTCParams lib.quote req nowUnix).uidString RtmRole.RoleRtmUser
                  (parseRTCParams lib.quote req nowUnix).expireTimestamp).token)]] }) ∧
      ((respond (getBothTokens lib g nowUnix) req).status = 200 →
        ((generateRTCToken lib g (parseRTCParams lib.quote req nowUnix).channelName
            (parseRTCParams lib.quote req nowUnix).uidString
            (parseRTCParams lib.quote req nowUnix).tokenType
            (parseRTCParams lib.quote req nowUnix).role
            (parseRTCParams lib.quote req nowUnix).expireTimestamp).1.err = none ∧
          (lib.BuildToken g.appID g.appCertificate
            (parseRTCParams lib.quote req nowUnix).uidString RtmRole.RoleRtmUser
            (parseRTCParams lib.quote req nowUnix).expireTimestamp).err = none)) ∧
      (∀ e, (generateRTCToken lib g (parseRTCParams lib.quote req nowUnix).channelName
            (parseRTCParams lib.quote req nowUnix).uidString
            (parseRTCParams lib.quote req nowUnix).tokenType
            (parseRTCParams lib.quote req nowUnix).role
            (parseRTCParams lib.quote req nowUnix).expireTimestamp).1.err = some e →
        respond (getBothTokens lib g nowUnix) req =
          { status := 400,
            bodies := [[("status", JSONValue.num 400),
              ("message", JSONValue.str ("Error generating RTC token: " ++ e))]] }) ∧
      (∀ e, (generateRTCToken lib g (parseRTCParams lib.quote req nowUnix).channelName
            (parseRTCParams lib.quote req nowUnix).uidString
            (parseRTCParams lib.quote req nowUnix).tokenType
            (parseRTCParams lib.quote req nowUnix).role
            (parseRTCParams lib.quote req nowUnix).expireTimestamp).1.err = none →
          (lib.BuildToken g.appID g.appCertificate
            (parseRTCParams lib.quote req nowUnix).uidString RtmRole.RoleRtmUser
            (parseRTCParams lib.quote req nowUnix).expireTimestamp).err = some e →
        respond (getBothTokens lib g nowUnix) req =
          { status := 400,
            bodies := [[("status", JSONValue.num 400),
              ("message", JSONValue.str ("Error generating RTM token: " ++ e))]] })) ∧
    (∀ body ∈ (respond (getBothTokens lib g nowUnix) req).bodies,
      tokenKeys body = [] ∨ tokenKeys body = ["rtcToken", "rtmToken"]) := by
  constructor
  · intro hv
    rw [respond_getBothTokens_valid lib g nowUnix req hv]
    generalize parseRTCParams lib.quote req nowUnix = p
    unfold getBothTokensRest
    cases hr : (generateRTCToken lib g p.channelName p.uidString p.tokenType p.role
        p.expireTimestamp).1.err with
    | some e =>
      simp [hr, Context.Error, Context.observe, recovery, Context.AbortWithStatusJSON,
        Context.JSON, bodyAllowedForStatus, Context.new]
    | none =>
      cases hm : (lib.BuildToken g.appID g.appCertificate p.uidString RtmRole.RoleRtmUser
          p.expireTimestamp).err with
      | some e =>
        simp [hr, hm, Context.Error, Context.observe, recovery, Context.AbortWithStatusJSON,
          Context.JSON, bodyAllowedForStatus, Context.new]
      | none =>
        simp [hr, hm, Context.observe, recovery, Context.JSON, bodyAllowedForStatus,
          Context.new]
  · intro body hb
    simp only [respond, getBothTokens] at hb
    cases hv : (parseRTCParams lib.quote (Context.new req).request nowUnix).err with
    | none =>
      simp only [hv] at hb
      exact tokenKeys_rest lib g _ _ (by simp [Context.new]) body hb
    | some e =>
      simp only [hv, Context.Error] at hb
      refine tokenKeys_rest lib g _ _ ?_ body hb
      intro b hb2
      simp [Context.AbortWithStatusJSON, Context.JSON, bodyAllowedForStatus, Context.new] at hb2
      left
      rw [hb2]
      exact tokenKeys_failure _ _

/-- Witness of C1 on the fixture where the channel signer fails and the messaging
signer succeeds: the parameters validate and the response is the channel failure. -/
theorem C1_both_tokens_or_failure_witness :
    (parseRTCParams rtcFailingLib.quote uidRequest 1700000000).err = none ∧
    respond (getBothTokens rtcFailingLib sampleGlobals 1700000000) uidRequest =
      { status := 400,
        bodies := [[("status", JSONValue.num 400),
          ("message", JSONValue.str "Error generating RTC token: channel signing failed")]] } :=
  ⟨by decide,
   ((C1_both_tokens_or_failure rtcFailingLib sampleGlobals 1700000000 uidRequest).1
      (by decide)).2.2.1 "channel signing failed" (by decide)⟩

/-- Witness of C4: with no `expiry` value and a clock near the 32-bit limit the
timestamp wraps, `4294967000 + 3600` giving `3304`. -/
theorem C4_expireTimestamp_wraps_witness :
    (parseRTMParams sampleQuote rtmRequest 4294967000).err = none ∧
    (parseRTMParams sampleQuote rtmRequest 4294967000).expireTimestamp = 3304 :=
  ⟨(C4_expireTimestamp_wraps sampleQuote rtmRequest 4294967000 3600
      (Or.inr ⟨by decide, rfl⟩)).2.2.1,
   (C4_expireTimestamp_wraps sampleQuote rtmRequest 4294967000 3600
      (Or.inr ⟨by decide, rfl⟩)).2.2.2.trans (by decide)⟩

/-- Witness of C5: the identity `-1` is rejected without a signer call, and the
identity `12345` passes the parse step. -/
theorem C5_uid_identity_rejected_witness :
    (generateRTCToken sampleLib sampleGlobals "testchannel" "-1" "uid" Role.RolePublisher 0).2
      = [] ∧
    (ParseUint "12345").2 = none :=
  ⟨((C5_uid_identity_rejected sampleLib sampleGlobals "testchannel" "-1" Role.RolePublisher 0).1
      (by
        rintro ⟨n, _, hd, _⟩
        exact absurd (hd (Char.ofNat 45) (by decide)) (by decide))).2.2,
   (C5_uid_identity_rejected sampleLib sampleGlobals "testchannel" "12345" Role.RolePublisher
      0).2 ⟨12345, by decide, by decide, by decide, by norm_num⟩⟩

/-- Witness of C6 at the wrongly cased token type `UID`. -/
theorem C6_unknown_tokenType_witness :
    (generateRTCToken sampleLib sampleGlobals "testchannel" "12345" "UID" Role.RolePublisher
      0).1.token = "" ∧
    signerCalls (generateRTCToken sampleLib sampleGlobals "testchannel" "12345" "UID"
      Role.RolePublisher 0).2 = [] :=
  ⟨(C6_unknown_tokenType sampleLib sampleGlobals "testchannel" "12345" "UID" Role.RolePublisher 0
      (by decide) (by decide)).1,
   (C6_unknown_tokenType sampleLib sampleGlobals "testchannel" "12345" "UID" Role.RolePublisher 0
      (by decide) (by decide)).2.2⟩

/-- Witness of C7 at the role value `Publisher`, which resolves to Subscriber. -/
theorem C7_role_resolution_witness :
    Param { params := [("role", "Publisher")], query := [] } "role" ≠ "publisher" ∧
    (parseRTCParams sampleQuote { params := [("role", "Publisher")], query := [] } 0).role
      = Role.RoleSubscriber :=
  ⟨by decide,
   (C7_role_resolution sampleQuote { params := [("role", "Publisher")], query := [] } 0).2.1
      (by decide)⟩

/-- Witness of C10: the identity `4294967297` is signed as uid `1`. -/
theorem C10_uid_narrowed_witness :
    IsDecimalU64 "4294967297" 4294967297 ∧
    generateRTCToken sampleLib sampleGlobals "testchannel" "4294967297" "uid" Role.RolePublisher
        1700000600 =
      (sampleLib.BuildTokenWithUID "app" "cert" "testchannel" (4294967297 % 2 ^ 32)
          Role.RolePublisher 1700000600,
        [Event.calledBuildTokenWithUID "app" "cert" "testchannel" (4294967297 % 2 ^ 32)
          Role.RolePublisher 1700000600]) :=
  ⟨⟨by decide, by decide, by decide, by norm_num⟩,
   (C10_uid_narrowed sampleLib sampleGlobals "testchannel" "4294967297" Role.RolePublisher
      1700000600 4294967297 ⟨by decide, by decide, by decide, by norm_num⟩).1⟩

/-! ## Handlers on a rejected `expiry` value -/

theorem getRTCToken_invalid_expiry (lib : Collaborators) (g : Globals) (nowUnix : Int)
    (req : Request) (e : String) (he : (parseRTCParams lib.quote req nowUnix).err = some e) :
    respond (getRTCToken lib g nowUnix) req =
      { status := 400,
        bodies := [[("status", JSONValue.num 400),
          ("message", JSONValue.str ("Error generating RTC token: " ++ e))]] } ∧
    eventsOf (getRTCToken lib g nowUnix) req = [] := by
  simp [respond, eventsOf, getRTCToken, Context.new, he, Context.Error, recovery,
    Context.AbortWithStatusJSON, Context.JSON, bodyAllowedForStatus]

theorem getRTMToken_invalid_expiry (lib : Collaborators) (g : Globals) (nowUnix : Int)
    (req : Request) (e : String) (he : (parseRTMParams lib.quote req nowUnix).err = some e) :
    respond (getRTMToken lib g nowUnix) req =
      { status := 400,
        bodies := [[("status", JSONValue.num 400),
          ("message", JSONValue.str "Error generating RTM token")]] } ∧
    eventsOf (getRTMToken lib g nowUnix) req = [] := by
  simp [respond, eventsOf, getRTMToken, Context.new, he, Context.Error, recovery,
    Context.AbortWithStatusJSON, Context.JSON, bodyAllowedForStatus]

theorem getBothTokens_invalid_expiry (lib : Collaborators) (g : Globals) (nowUnix : Int)
    (req : Request) (e : String) (he : (parseRTCParams lib.quote req nowUnix).err = some e) :
    (respond (getBothTokens lib g nowUnix) req).status = 400 ∧
    (respond (getBothTokens lib g nowUnix) req).bodies.head? =
      some [("status", JSONValue.num 400),
        ("message", JSONValue.str ("Error generating tokens: " ++ e))] := by
  simp only [respond, getBothTokens, Context.new, he, Context.Error, getBothTokensRest]
  cases hr : (generateRTCToken lib g (parseRTCParams lib.quote req nowUnix).channelName
      (parseRTCParams lib.quote req nowUnix).uidString
      (parseRTCParams lib.quote req nowUnix).tokenType
      (parseRTCParams lib.quote req nowUnix).role
      (parseRTCParams lib.quote req nowUnix).expireTimestamp).1.err with
  | some e1 =>
    simp [Context.Error, Context.observe, recovery, Context.AbortWithStatusJSON,
      Context.JSON, bodyAllowedForStatus]
  | none =>
    cases hm : (lib.BuildToken g.appID g.appCertificate
        (parseRTCParams lib.quote req nowUnix).uidString RtmRole.RoleRtmUser
        (parseRTCParams lib.quote req nowUnix).expireTimestamp).err with
    | some e2 =>
      simp [Context.Error, Context.observe, recovery, Context.AbortWithStatusJSON,
        Context.JSON, bodyAllowedForStatus]
    | none =>
      simp [Context.observe, recovery, Context.AbortWithStatusJSON, Context.JSON,
        bodyAllowedForStatus]

theorem getRTCToken_dispatch_failure (lib : Collaborators) (g : Globals) (nowUnix : Int)
    (req : Request) (e : String)
    (hv : (parseRTCParams lib.quote req nowUnix).err = none)
    (hf : (generateRTCToken lib g (parseRTCParams lib.quote req nowUnix).channelName
        (parseRTCParams lib.quote req nowUnix).uidString
        (parseRTCParams lib.quote req nowUnix).tokenType
        (parseRTCParams lib.quote req nowUnix).role
        (parseRTCParams lib.quote req nowUnix).expireTimestamp).1.err = some e) :
    respond (getRTCToken lib g nowUnix) req = { status := 500, bodies := [] } := by
  simp [respond, getRTCToken, Context.new, hv, hf, Context.Error, recovery,
    Context.AbortWithStatus, Context.observe, Context.Println]

theorem parseUint_abc : ParseUint "abc" = (0, some NumErrKind.invalid) := by decide

theorem parseUint_3600 : ParseUint "3600" = (3600, none) :=
  ParseUint_of_decimal isDecimalU64_3600

/-- C2: the request `GET /rtc/testchannel/publisher/badtype/12345/` validates and its
dispatch fails with an error naming `badtype`, yet the handler panics in
`c.Error(err)` on the nil parameter error before it writes the failure, and the
recovery middleware answers with status 500 and no body. -/
theorem C2_getRTCToken_badtype_response (lib : Collaborators) (g : Globals) (nowUnix : Int) :
    (parseRTCParams lib.quote badTypeRequest nowUnix).err = none ∧
    (generateRTCToken lib g "testchannel" "12345" "badtype" Role.RolePublisher
        (parseRTCParams lib.quote badTypeRequest nowUnix).expireTimestamp).1.err
      = some "failed to generate RTC token for unknown tokenType: badtype" ∧
    respond (getRTCToken lib g nowUnix) badTypeRequest = { status := 500, bodies := [] } := by
  have hv : (parseRTCParams lib.quote badTypeRequest nowUnix).err = none := by
    simp [parseRTCParams, DefaultQuery, badTypeRequest, parseUint_3600]
  have hf : ∀ ts, (generateRTCToken lib g "testchannel" "12345" "badtype" Role.RolePublisher
      ts).1.err = some "failed to generate RTC token for unknown tokenType: badtype" := by
    intro ts
    unfold generateRTCToken
    rw [if_neg (by decide), if_neg (by decide)]
    rfl
  refine ⟨hv, hf _, ?_⟩
  exact getRTCToken_dispatch_failure lib g nowUnix badTypeRequest _ hv (hf _)

/-- C3: on `GET /rte/testchannel/publisher/uid/12345/?expiry=abc` the handler
`getBothTokens` does not stop after writing the status-400 failure: it invokes
`BuildTokenWithUID` and the messaging signer with the expiry computed from a zero
lifetime, and with signers that succeed it writes the token payload as a second body. -/
theorem C3_getBothTokens_falls_through (lib : Collaborators) (g : Globals) (nowUnix : Int) :
    (parseRTCParams lib.quote badExpiryRequest nowUnix).err ≠ none ∧
    signerCalls (eventsOf (getBothTokens lib g nowUnix) badExpiryRequest) =
      [Event.calledBuildTokenWithUID g.appID g.appCertificate "testchannel" 12345
          Role.RolePublisher (addUint32 (uint32OfInt64 nowUnix) 0),
        Event.calledBuildToken g.appID g.appCertificate "12345" RtmRole.RoleRtmUser
          (addUint32 (uint32OfInt64 nowUnix) 0)] ∧
    respond (getBothTokens sampleLib sampleGlobals 1700000000) badExpiryRequest =
      { status := 400,
        bodies := [[("status", JSONValue.num 400),
            ("message", JSONValue.str (String.join ["Error generating tokens: ",
              "failed to parse expireTime: abc, causing error: ",
              "strconv.ParseUint: parsing ", sampleQuote "abc", ": invalid syntax"]))],
          [("rtcToken", JSONValue.str "006rtcByUid"), ("rtmToken", JSONValue.str "006rtm")]] } := by
  refine ⟨?_, ?_, by decide⟩
  · simp [parseRTCParams, DefaultQuery, badExpiryRequest, parseUint_abc]
  · have h12345 : ParseUint "12345" = (12345, none) := by decide
    have hp : parseRTCParams lib.quote badExpiryRequest nowUnix =
        { channelName := "testchannel", tokenType := "uid", uidString := "12345",
          role := Role.RolePublisher,
          expireTimestamp := addUint32 (uint32OfInt64 nowUnix) 0,
          err := some (expireTimeError lib.quote "abc" NumErrKind.invalid) } := by
      simp [parseRTCParams, DefaultQuery, Param, badExpiryRequest, parseUint_abc, uint32OfUint64]
      decide
    have hg : ∀ ts, generateRTCToken lib g "testchannel" "12345" "uid" Role.RolePublisher ts =
        (lib.BuildTokenWithUID g.appID g.appCertificate "testchannel" 12345 Role.RolePublisher ts,
          [Event.calledBuildTokenWithUID g.appID g.appCertificate "testchannel" 12345
            Role.RolePublisher ts]) := by
      intro ts
      unfold generateRTCToken
      rw [if_neg (by decide), if_pos rfl, h12345]
      rfl
    simp only [eventsOf, getBothTokens, Context.new, hp, Context.Error, getBothTokensRest, hg]
    cases hr : (lib.BuildTokenWithUID g.appID g.appCertificate "testchannel" 12345
        Role.RolePublisher (addUint32 (uint32OfInt64 nowUnix) 0)).err with
    | some e =>
      simp [Context.Error, Context.observe, recovery, Context.AbortWithStatusJSON,
        Context.JSON, bodyAllowedForStatus, signerCalls, Event.isSignerCall]
    | none =>
      cases hm : (lib.BuildToken g.appID g.appCertificate "12345" RtmRole.RoleRtmUser
          (addUint32 (uint32OfInt64 nowUnix) 0)).err with
      | some e =>
        simp [Context.Error, Context.observe, recovery, Context.AbortWithStatusJSON,
          Context.JSON, bodyAllowedForStatus, signerCalls, Event.isSignerCall]
      | none =>
        simp [Context.observe, recovery, Context.AbortWithStatusJSON, Context.JSON,
          bodyAllowedForStatus, signerCalls, Event.isSignerCall]

/-- C8: on `GET /rtm/user42/?expiry=abc` the validator reports an error naming the
value `abc`, and `getRTMToken` answers with the fixed text `Error generating RTM token`,
which contains neither the validator error nor the value. -/
theorem C8_getRTMToken_message_fixed (lib : Collaborators) (g : Globals) (nowUnix : Int) :
    (parseRTMParams lib.quote rtmBadExpiryRequest nowUnix).err =
      some (expireTimeError lib.quote "abc" NumErrKind.invalid) ∧
    Contains (expireTimeError lib.quote "abc" NumErrKind.invalid) "abc" ∧
    respond (getRTMToken lib g nowUnix) rtmBadExpiryRequest =
      { status := 400,
        bodies := [[("status", JSONValue.num 400),
          ("message", JSONValue.str "Error generating RTM token")]] } ∧
    ¬ Contains "Error generating RTM token" "abc" := by
  have he : (parseRTMParams lib.quote rtmBadExpiryRequest nowUnix).err =
      some (expireTimeError lib.quote "abc" NumErrKind.invalid) := by
    simp [parseRTMParams, DefaultQuery, rtmBadExpiryRequest, parseUint_abc]
  refine ⟨he, ?_, (getRTMToken_invalid_expiry lib g nowUnix rtmBadExpiryRequest _ he).1,
    by unfold Contains; decide⟩
  unfold Contains expireTimeError
  refine ⟨("failed to parse expireTime: " : String).data,
    (", causing error: " ++ numErrorText lib.quote "abc" NumErrKind.invalid).data, ?_⟩
  simp [String.data_append]

/-! ## Startup -/

/-- C9, counterexample: with `APP_ID` set to the empty string and `APP_CERTIFICATE`
set, `main` does not fail; it registers the routes and serves with an empty `appID`. -/
theorem C9_empty_value_accepted :
    LookupEnv emptyAppIDEnv "APP_ID" = ("", true) ∧
    main (some []) emptyAppIDEnv =
      Startup.serving { appID := "", appCertificate := "cert" }
        ["/ping", "rtc/:channelName/:role/:tokenType/:uid/", "rtm/:uid/",
         "rte/:channelName/:role/:tokenType/:uid/"] := by
  constructor <;> decide

/-- C9, amended: `main` reaches serving only if the `.env` load succeeds and both
`APP_ID` and `APP_CERTIFICATE` are set in the resulting environment, an empty value
counting as set; if either is not set, `main` ends in `log.Fatal` with no route
registered. -/
theorem C9_startup_requires_presence (dotenv : Option Env) (env : Env) :
    ((∃ g routes, main dotenv env = Startup.serving g routes) →
      ∃ env1, godotenvLoad dotenv env = some env1 ∧
        (LookupEnv env1 "APP_ID").2 = true ∧ (LookupEnv env1 "APP_CERTIFICATE").2 = true) ∧
    ((∀ env1, godotenvLoad dotenv env = some env1 →
        (LookupEnv env1 "APP_ID").2 = false ∨ (LookupEnv env1 "APP_CERTIFICATE").2 = false) →
      ∃ msg, main dotenv env = Startup.fatal msg) := by
  unfold main
  cases hl : godotenvLoad dotenv env with
  | none => simp
  | some env1 =>
    cases h1 : (LookupEnv env1 "APP_ID").2 <;> cases h2 : (LookupEnv env1 "APP_CERTIFICATE").2 <;>
      simp [h1, h2]

/-- Witness of C9, amended: with `APP_CERTIFICATE` not set, `main` ends in `log.Fatal`. -/
theorem C9_startup_requires_presence_witness :
    ∃ msg, main (some []) [("APP_ID", "app")] = Startup.fatal msg :=
  (C9_startup_requires_presence (some []) [("APP_ID", "app")]).2
    (fun env1 h => Or.inr (by
      have : env1 = [("APP_ID", "app")] := by
        have h2 : godotenvLoad (some []) [("APP_ID", "app")] = some [("APP_ID", "app")] := by
          decide
        rw [h2] at h
        exact (Option.some.inj h).symm
      rw [this]
      decide))

end AgoraTokenServer
